import Mathlib

/-!
Verification of the JPTV-Player native playback controller
(`src/native/vlc_player.cpp`, class `VlcPlayer`) against its
natural-language specification.

Modelling conventions (shallow embedding):

* The `VlcPlayer` object state is the structure `PlayerState`.  Engine
  handles (`libvlc_instance_t*`, `libvlc_media_player_t*`) are modelled by
  a `Bool` (instance exists) and an `Option MediaPlayerHandle`; the null
  pointer is `false` / `none`.
* Calls into the external libVLC engine return values chosen by the
  environment.  Each operation therefore takes the engine's answers as
  explicit oracle arguments (`PlayOracle`, `FrozenOracle`, `StatsOracle`,
  plain `Bool`s).  The engine-held per-player volume is tracked in the
  player handle so that a set followed by a get can be related.
* `std::chrono::steady_clock` time points are modelled as integers counting
  whole seconds, so the `duration_cast<seconds>` truncation in
  `isStreamFrozen` is the identity and `now - lastFrameTime` is the elapsed
  time in seconds.
* The float bitrate fields of `StreamStats` are modelled as `Int`: the
  controller only copies them between the engine and the cache, never
  computes with them, so only propagation matters.
* The `catch (...)` blocks in the C++ wrap calls into the libVLC C API,
  which cannot raise C++ exceptions; the only genuinely throwing
  operations are `std::string` allocations.  The two catch branches the
  specification describes behaviourally (`play` setting the error flag,
  `getStats` returning the cached snapshot) are modelled by a `fault`
  oracle flag; the remaining catch blocks are dead code and are modelled
  as unreachable.
* The mutex serialises every public operation; since each operation is
  modelled as an atomic state transformer, the lock needs no further
  modelling.
-/

/-- Engine playback states reported by `libvlc_media_player_get_state`. -/
inductive VlcState where
  | NothingSpecial
  | Opening
  | Buffering
  | Playing
  | Paused
  | Stopped
  | Ended
  | Error
deriving DecidableEq

/-- Transport statistics snapshot (`struct StreamStats` in the source).
The two C++ `float` bitrate fields are modelled as `Int` (they are only
copied, never computed with). -/
structure StreamStats where
  inputBitrate : Int
  demuxBitrate : Int
  lostBuffers : Int
  displayedPictures : Int
  lostPictures : Int
deriving DecidableEq

/-- The default-constructed `StreamStats`: every field zero. -/
def zeroStats : StreamStats :=
  { inputBitrate := 0, demuxBitrate := 0, lostBuffers := 0,
    displayedPictures := 0, lostPictures := 0 }

/-- A live `libvlc_media_player_t` handle, tracking the controller-visible
engine-side facts about it: which window handle was attached with
`libvlc_media_player_set_hwnd`, whether a media object is currently set on
it (`libvlc_media_player_set_media` / `get_media`), and the engine-held
audio volume (`libvlc_audio_set_volume` / `get_volume`).  A freshly created
player has no media; its initial volume is the engine default, which no
claim depends on. -/
structure MediaPlayerHandle where
  attachedHwnd : Nat
  hasMedia : Bool
  volume : Int
deriving DecidableEq

/-- The complete mutable state of the `VlcPlayer` object
(`src/native/vlc_player.cpp` lines 9-42).  `vlcInstance = true` means the
`libvlc_instance_t*` is non-null; `mediaPlayer = some mp` means the
`libvlc_media_player_t*` is non-null.  `hwnd` is the stored window handle
(`0` models the null `HWND`). -/
structure PlayerState where
  vlcInstance : Bool
  mediaPlayer : Option MediaPlayerHandle
  hwnd : Nat
  initialized : Bool
  lastFrameTime : Int
  freezeDetectionEnabled : Bool
  lastFrameCount : Int
  currentUrl : String
  isInErrorState : Bool
  lastStats : StreamStats
  isRecording : Bool
  recordingPath : String
deriving DecidableEq

/-- The state of a freshly constructed `VlcPlayer` (member initialisers plus
the constructor, which records a start-of-life timestamp; we model it as
time `0`). -/
def initState : PlayerState :=
  { vlcInstance := false, mediaPlayer := none, hwnd := 0,
    initialized := false, lastFrameTime := 0,
    freezeDetectionEnabled := false, lastFrameCount := 0,
    currentUrl := "", isInErrorState := false, lastStats := zeroStats,
    isRecording := false, recordingPath := "" }

/-- `VlcPlayer::initialize(HWND)` (lines 79-116).  Oracle arguments:
`engineOk` is whether `libvlc_new` succeeds, `playerOk` whether
`libvlc_media_player_new` succeeds.  Note the window handle is stored
before the engine is created, so it is recorded even on failure; on a
player-creation failure the freshly created engine instance is released
again. -/
def initPlayer (s : PlayerState) (windowHandle : Nat)
    (engineOk playerOk : Bool) : Bool × PlayerState :=
  if s.initialized then (true, s)
  else
    let s1 := { s with hwnd := windowHandle }
    if !engineOk then (false, { s1 with vlcInstance := false })
    else if !playerOk then
      (false, { s1 with vlcInstance := false, mediaPlayer := none })
    else
      (true, { s1 with vlcInstance := true,
                       mediaPlayer := some { attachedHwnd := windowHandle,
                                             hasMedia := false,
                                             volume := 100 },
                       initialized := true })

/-- `VlcPlayer::recreateMediaPlayer()` (lines 53-77).  Oracle `playerOk` is
whether `libvlc_media_player_new` succeeds.  Requires a live engine
instance; releases the old player, creates a fresh one, reattaches the
stored window handle and clears the error flag on success.  On failure the
player is left null but the engine instance survives. -/
def recreateMediaPlayer (s : PlayerState) (playerOk : Bool) :
    Bool × PlayerState :=
  if !s.vlcInstance then (false, s)
  else if playerOk then
    (true, { s with mediaPlayer := some { attachedHwnd := s.hwnd,
                                          hasMedia := false,
                                          volume := 100 },
                    isInErrorState := false })
  else (false, { s with mediaPlayer := none })

/-- Oracle answers for one `play` call: whether
`libvlc_media_new_location` succeeds, whether `libvlc_media_player_play`
returns 0, whether an internal fault (the catch branch) fires, and the
`steady_clock::now()` reading taken on success. -/
structure PlayOracle where
  mediaOk : Bool
  playOk : Bool
  fault : Bool
  now : Int
deriving DecidableEq

/-- `VlcPlayer::play(url)` (lines 118-159).  The conditional engine stop
plus 100 ms settle sleep before loading affects only engine-internal state
and is not tracked.  If `set_media` ran (the media object was created), the
player has a media set even when the subsequent play request fails; the
error flag is set only by the catch branch. -/
def play (s : PlayerState) (url : String) (o : PlayOracle) :
    Bool × PlayerState :=
  match s.mediaPlayer with
  | none => (false, s)
  | some mp =>
    if !s.initialized then (false, s)
    else if o.fault then (false, { s with isInErrorState := true })
    else if !o.mediaOk then (false, s)
    else
      let s1 := { s with mediaPlayer := some { mp with hasMedia := true } }
      if o.playOk then
        (true, { s1 with currentUrl := url,
                         lastFrameTime := o.now,
                         freezeDetectionEnabled := true,
                         lastFrameCount := 0,
                         isInErrorState := false })
      else (false, s1)

/-- `VlcPlayer::stop()` (lines 161-177).  The try block contains only the
non-throwing libVLC C call and nothrow field resets, so the catch branch is
dead code and is not modelled. -/
def stop (s : PlayerState) : Bool × PlayerState :=
  match s.mediaPlayer with
  | none => (false, s)
  | some _ =>
    if !s.initialized then (false, s)
    else
      (true, { s with freezeDetectionEnabled := false,
                      currentUrl := "",
                      isInErrorState := false })

/-- `VlcPlayer::pause()` (lines 179-188): forwards to the engine and
reports success whenever the session is live. -/
def pause (s : PlayerState) : Bool × PlayerState :=
  match s.mediaPlayer with
  | none => (false, s)
  | some _ => if !s.initialized then (false, s) else (true, s)

/-- `VlcPlayer::resume()` (lines 190-201).  Oracle arguments: whether the
engine currently reports playing, and whether the forwarded
`libvlc_media_player_play` call would succeed.  The source ignores the play
result entirely, so neither oracle influences the outcome. -/
def resume (s : PlayerState) (isPlayingNow playOk : Bool) :
    Bool × PlayerState :=
  match s.mediaPlayer with
  | none => (false, s)
  | some _ =>
    if !s.initialized then (false, s)
    else
      -- if not playing, a play request is issued; its result (playOk) and
      -- the isPlayingNow probe do not affect the returned value or state
      (true, s)

/-- The clamping expression of `VlcPlayer::setVolume` (line 211):
`volume < 0 ? 0 : (volume > 100 ? 100 : volume)`. -/
def clampVolume (v : Int) : Int :=
  if v < 0 then 0 else if v > 100 then 100 else v

/-- `VlcPlayer::setVolume(volume)` (lines 203-214): clamps to [0,100] and
forwards to the engine (tracked in the player handle). -/
def setVolume (s : PlayerState) (v : Int) : Bool × PlayerState :=
  match s.mediaPlayer with
  | none => (false, s)
  | some mp =>
    if !s.initialized then (false, s)
    else
      (true, { s with mediaPlayer := some { mp with volume := clampVolume v } })

/-- `VlcPlayer::getVolume()` (lines 216-224): returns the engine-held
volume, or 0 when the session is not live. -/
def getVolume (s : PlayerState) : Int :=
  match s.mediaPlayer with
  | none => 0
  | some mp => if !s.initialized then 0 else mp.volume

/-- Oracle answers for one `isStreamFrozen` query: the engine state, the
`steady_clock::now()` reading, and whether the media object (when one is
set) reports `libvlc_Error` from `libvlc_media_get_state`. -/
structure FrozenOracle where
  engineState : VlcState
  now : Int
  mediaErr : Bool
deriving DecidableEq

/-- `VlcPlayer::isStreamFrozen(threshold)` (lines 259-302).  Guard: false
when the session is not live or freeze detection is disabled.  Then: true
on engine state `Error`/`Ended`; false on any other non-`Playing` state;
when `Playing`, true if the set media reports an `Error` media state, and
otherwise true iff the elapsed seconds since `lastFrameTime` reach the
threshold. -/
def isStreamFrozen (s : PlayerState) (o : FrozenOracle) (threshold : Int) :
    Bool :=
  match s.mediaPlayer with
  | none => false
  | some mp =>
    if !s.initialized || !s.freezeDetectionEnabled then false
    else if o.engineState = .Error || o.engineState = .Ended then true
    else if !(o.engineState = .Playing) then false
    else if mp.hasMedia && o.mediaErr then true
    else if o.now - s.lastFrameTime ≥ threshold then true
    else false

/-- `VlcPlayer::updateFrameTime()` (lines 305-325).  Oracle arguments:
whether the engine reports playing, the engine-reported position
`libvlc_media_player_get_time`, and `steady_clock::now()`. -/
def updateFrameTime (s : PlayerState) (isPlayingNow : Bool)
    (currentTime now : Int) : PlayerState :=
  match s.mediaPlayer with
  | none => s
  | some _ =>
    if s.freezeDetectionEnabled then
      if isPlayingNow then
        if currentTime ≠ s.lastFrameCount ∧ currentTime > 0 then
          { s with lastFrameTime := now, lastFrameCount := currentTime }
        else s
      else s
    else s

/-- `VlcPlayer::getCurrentUrl()` (lines 327-330). -/
def getCurrentUrl (s : PlayerState) : String :=
  s.currentUrl

/-- `VlcPlayer::isInError()` (lines 332-335). -/
def isInError (s : PlayerState) : Bool :=
  s.isInErrorState

/-- Oracle answers for one `getStats` call: whether
`libvlc_media_get_stats` reports statistics, the snapshot it fills in when
it does, and whether an internal fault (the catch branch) fires. -/
structure StatsOracle where
  statsOk : Bool
  val : StreamStats
  fault : Bool
deriving DecidableEq

/-- `VlcPlayer::getStats()` (lines 338-371).  A default (all-zero) snapshot
is returned when the session is not live, when no media is set, or when the
engine reports no statistics; only a successful read updates the cache
`lastStats`, and only the catch branch returns the cached snapshot. -/
def getStats (s : PlayerState) (o : StatsOracle) :
    StreamStats × PlayerState :=
  match s.mediaPlayer with
  | none => (zeroStats, s)
  | some mp =>
    if !s.initialized then (zeroStats, s)
    else if o.fault then (s.lastStats, s)
    else if !mp.hasMedia then (zeroStats, s)
    else if o.statsOk then (o.val, { s with lastStats := o.val })
    else (zeroStats, s)

/-- `VlcPlayer::startRecording(filePath)` (lines 374-411).  Requires a live
session, no recording in progress and a media object set on the player; the
sout option string built and applied to the media configures only
engine-internal state and is not tracked.  The try block cannot fault apart
from string allocation, which is out of scope, so the catch is not
modelled. -/
def startRecording (s : PlayerState) (filePath : String) :
    Bool × PlayerState :=
  match s.mediaPlayer with
  | none => (false, s)
  | some mp =>
    if !s.initialized then (false, s)
    else if s.isRecording then (false, s)
    else if !mp.hasMedia then (false, s)
    else
      (true, { s with isRecording := true, recordingPath := filePath })

/-- `VlcPlayer::stopRecording()` (lines 414-430): local bookkeeping only,
fails when no recording is active. -/
def stopRecording (s : PlayerState) : Bool × PlayerState :=
  if !s.isRecording then (false, s)
  else (true, { s with isRecording := false, recordingPath := "" })

/-- `VlcPlayer::getIsRecording()` (lines 433-436). -/
def getIsRecording (s : PlayerState) : Bool :=
  s.isRecording

/-- `VlcPlayer::getRecordingPath()` (lines 439-442). -/
def getRecordingPath (s : PlayerState) : String :=
  s.recordingPath

/-- `VlcPlayer::cleanup()` (lines 445-460), the teardown path run by the
destructor: stops and releases the player, releases the engine instance,
resets `initialized`.  Note it does not reset the freeze-detection,
URL, stats or recording bookkeeping. -/
def teardown (s : PlayerState) : PlayerState :=
  { s with mediaPlayer := none, vlcInstance := false, initialized := false }

/-- One public operation together with the engine oracle answers consumed
during it.  Pure queries (`getVolume`, `isStreamFrozen`, `getCurrentUrl`,
...) do not change state and are not listed. -/
inductive Op where
  | initOp (windowHandle : Nat) (engineOk playerOk : Bool)
  | playOp (url : String) (o : PlayOracle)
  | stopOp
  | pauseOp
  | resumeOp (isPlayingNow playOk : Bool)
  | setVolumeOp (v : Int)
  | recreateOp (playerOk : Bool)
  | updateOp (isPlayingNow : Bool) (currentTime now : Int)
  | statsOp (o : StatsOracle)
  | startRecOp (path : String)
  | stopRecOp
  | teardownOp

/-- The state transformer of one public operation. -/
def step (s : PlayerState) : Op → PlayerState
  | .initOp w eo po => (initPlayer s w eo po).2
  | .playOp url o => (play s url o).2
  | .stopOp => (stop s).2
  | .pauseOp => (pause s).2
  | .resumeOp ipn pok => (resume s ipn pok).2
  | .setVolumeOp v => (setVolume s v).2
  | .recreateOp pok => (recreateMediaPlayer s pok).2
  | .updateOp ipn ct n => updateFrameTime s ipn ct n
  | .statsOp o => (getStats s o).2
  | .startRecOp p => (startRecording s p).2
  | .stopRecOp => (stopRecording s).2
  | .teardownOp => teardown s

/-- The state reached from a fresh `VlcPlayer` by a sequence of public
operations. -/
def run (ops : List Op) : PlayerState :=
  ops.foldl step initState

/-- The structural facts that hold in every reachable state: a live player
handle implies the session is initialized; the engine instance exists
exactly when the session is initialized; and the recording path is empty
whenever no recording is active. -/
def SessionInv (s : PlayerState) : Prop :=
  (s.mediaPlayer.isSome = true → s.initialized = true)
    ∧ s.vlcInstance = s.initialized
    ∧ (s.isRecording = false → s.recordingPath = "")

theorem sessionInv_initState : SessionInv initState := by
  refine ⟨?_, ?_, ?_⟩ <;> simp [initState]

theorem sessionInv_step (s : PlayerState) (op : Op) (h : SessionInv s) :
    SessionInv (step s op) := by
  obtain ⟨h1, h2, h3⟩ := h
  cases op <;>
    simp only [step, initPlayer, play, stop, pause, resume, setVolume,
      recreateMediaPlayer, updateFrameTime, getStats, startRecording,
      stopRecording, teardown] <;>
    repeat' split
  all_goals refine ⟨?_, ?_, ?_⟩
  all_goals simp_all [SessionInv]

theorem sessionInv_foldl (ops : List Op) (s : PlayerState)
    (h : SessionInv s) : SessionInv (ops.foldl step s) := by
  induction ops generalizing s with
  | nil => exact h
  | cons op rest ih => exact ih (step s op) (sessionInv_step s op h)

theorem sessionInv_run (ops : List Op) : SessionInv (run ops) :=
  sessionInv_foldl ops initState sessionInv_initState

/-! ### Claim C1: `isStreamFrozen` -/

/-- A concrete live, monitoring-enabled playing session used to exercise
`isStreamFrozen`. -/
def c1State : PlayerState :=
  { vlcInstance := true,
    mediaPlayer := some { attachedHwnd := 42, hasMedia := true, volume := 100 },
    hwnd := 42, initialized := true, lastFrameTime := 0,
    freezeDetectionEnabled := true, lastFrameCount := 1000,
    currentUrl := "udp://239.0.0.1:1234", isInErrorState := false,
    lastStats := zeroStats, isRecording := false, recordingPath := "" }

/-- C1 counterexample: with monitoring enabled, engine state `Playing` and
an elapsed time (3 s) strictly below the threshold (10 s), the claim says
`isStreamFrozen` must return `false`; but because the media object set on
the player reports the `Error` media state, the source (lines 283-290)
returns `true`. -/
theorem c1_counterexample :
    c1State.freezeDetectionEnabled = true ∧
    c1State.initialized = true ∧
    (FrozenOracle.mk VlcState.Playing 3 true).engineState = VlcState.Playing ∧
    (FrozenOracle.mk VlcState.Playing 3 true).now - c1State.lastFrameTime < 10 ∧
    isStreamFrozen c1State (FrozenOracle.mk VlcState.Playing 3 true) 10 = true :=
  ⟨rfl, rfl, rfl, by decide, by decide⟩

/-- C1 (amended): whenever monitoring is disabled `isStreamFrozen` returns
`false` regardless of engine state and elapsed time.  For a live session
with monitoring enabled: it returns `true` immediately when the engine
state is `Error` or `Ended`; `false` when the engine state is any other
non-`Playing` state; and when the engine state is `Playing`, it returns
`true` iff the media set on the player reports an `Error` media state or
`now - lastFrameTime ≥ threshold`. -/
theorem c1_isStreamFrozen :
    (∀ s o t, s.freezeDetectionEnabled = false → isStreamFrozen s o t = false) ∧
    (∀ s mp o t, s.mediaPlayer = some mp → s.initialized = true →
      s.freezeDetectionEnabled = true →
      (((o.engineState = VlcState.Error ∨ o.engineState = VlcState.Ended) →
          isStreamFrozen s o t = true) ∧
        (o.engineState ≠ VlcState.Error → o.engineState ≠ VlcState.Ended →
          o.engineState ≠ VlcState.Playing → isStreamFrozen s o t = false) ∧
        (o.engineState = VlcState.Playing →
          (isStreamFrozen s o t = true ↔
            (mp.hasMedia = true ∧ o.mediaErr = true) ∨
              o.now - s.lastFrameTime ≥ t)))) := by
  constructor
  · intro s o t hdis
    unfold isStreamFrozen
    cases hmp : s.mediaPlayer with
    | none => rfl
    | some mp => simp [hdis]
  · intro s mp o t hmp hin hen
    refine ⟨?_, ?_, ?_⟩
    · rintro (he | he) <;> simp [isStreamFrozen, hmp, hin, hen, he]
    · intro h1 h2 h3
      simp [isStreamFrozen, hmp, hin, hen, h1, h2, h3]
    · intro hp
      cases hmed : mp.hasMedia <;> cases hmerr : o.mediaErr <;>
        by_cases ht : o.now - s.lastFrameTime ≥ t <;>
        simp [isStreamFrozen, hmp, hin, hen, hp, hmed, hmerr, ht]

/-- C1 witness: the amended theorem evaluated at concrete inputs — a
monitoring-disabled session reports not-frozen, and an `Error` engine state
reports frozen immediately. -/
theorem c1_isStreamFrozen_witness :
    isStreamFrozen { c1State with freezeDetectionEnabled := false }
      (FrozenOracle.mk VlcState.Playing 100 false) 10 = false ∧
    isStreamFrozen c1State (FrozenOracle.mk VlcState.Error 0 false) 10 = true :=
  ⟨c1_isStreamFrozen.1 _ _ _ rfl,
   (c1_isStreamFrozen.2 c1State { attachedHwnd := 42, hasMedia := true, volume := 100 }
      (FrozenOracle.mk VlcState.Error 0 false) 10 rfl rfl rfl).1 (Or.inl rfl)⟩

/-! ### Claim C2: stats cache fallback -/

/-- An operation sequence producing a session that has cached one
successful nonzero stats read and then lost its media (the player was
recreated, so `libvlc_media_player_get_media` returns null). -/
def c2Ops : List Op :=
  [Op.initOp 42 true true,
   Op.playOp "udp://239.0.0.1:1234"
     { mediaOk := true, playOk := true, fault := false, now := 0 },
   Op.statsOp
     { statsOk := true,
       val := { inputBitrate := 5, demuxBitrate := 6, lostBuffers := 7,
                displayedPictures := 8, lostPictures := 9 },
       fault := false },
   Op.recreateOp true]

/-- C2 counterexample: in the reachable session `run c2Ops`, a stats read
has succeeded (the cache is nonzero), yet the next read — which fails
because no current source is set — returns the all-zero snapshot instead
of the cached one (source lines 348-351 return the default-constructed
`stats`). -/
theorem c2_counterexample :
    (run c2Ops).initialized = true ∧
    (run c2Ops).lastStats ≠ zeroStats ∧
    (getStats (run c2Ops) { statsOk := true, val := zeroStats, fault := false }).1
      = zeroStats ∧
    (getStats (run c2Ops) { statsOk := true, val := zeroStats, fault := false }).1
      ≠ (run c2Ops).lastStats :=
  ⟨rfl, by decide, rfl, by decide⟩

/-- C2 (amended): before any successful read the cache is all-zero.  For a
live session, a read that fails because no current source is set or because
the engine reports no statistics returns an all-zero snapshot (not the
cache); only an internal fault during the read returns the previously
cached snapshot unchanged; a successful read returns the fresh snapshot and
stores it in the cache. -/
theorem c2_getStats :
    initState.lastStats = zeroStats ∧
    ∀ s mp o, s.mediaPlayer = some mp → s.initialized = true →
      ((o.fault = true → getStats s o = (s.lastStats, s)) ∧
       (o.fault = false → mp.hasMedia = false → getStats s o = (zeroStats, s)) ∧
       (o.fault = false → mp.hasMedia = true → o.statsOk = false →
         getStats s o = (zeroStats, s)) ∧
       (o.fault = false → mp.hasMedia = true → o.statsOk = true →
         getStats s o = (o.val, { s with lastStats := o.val }))) := by
  refine ⟨rfl, ?_⟩
  intro s mp o hmp hin
  refine ⟨?_, ?_, ?_, ?_⟩ <;> intro hf <;>
    simp [getStats, hmp, hin, hf]
  · intro hm
    simp [hm]
  · intro hm hok
    simp [hm, hok]
  · intro hm hok
    simp [hm, hok]

/-- C2 witness: the amended theorem evaluated on the concrete reachable
session of the counterexample — the no-source failing read yields zeros. -/
theorem c2_getStats_witness :
    getStats (run c2Ops) { statsOk := true, val := zeroStats, fault := false }
      = (zeroStats, run c2Ops) :=
  (c2_getStats.2 (run c2Ops)
      { attachedHwnd := 42, hasMedia := false, volume := 100 }
      { statsOk := true, val := zeroStats, fault := false }
      rfl rfl).2.1 rfl rfl

/-! ### Claim C3: `play` success and failure behaviour -/

/-- A freshly initialized session (window handle 7). -/
def c3State : PlayerState :=
  run [Op.initOp 7 true true]

/-- C3 counterexample: in an initialized session, when the engine returns
failure from the play request (`libvlc_media_player_play` nonzero), the
call returns failure but does not set the error flag — the source only
sets `isInErrorState` in its catch branch (lines 155-158), not on an
engine-reported failure. -/
theorem c3_counterexample :
    c3State.initialized = true ∧
    (play c3State "udp://239.0.0.1:1234"
      { mediaOk := true, playOk := false, fault := false, now := 3 }).1 = false ∧
    ((play c3State "udp://239.0.0.1:1234"
      { mediaOk := true, playOk := false, fault := false, now := 3 }).2).isInErrorState
      = false :=
  ⟨rfl, rfl, rfl⟩

/-- C3 (amended): for a live session, on success `play(url)` records `url`
as current, re-enables freeze detection with a zeroed last position and a
fresh timestamp, clears the error flag and returns success.  On an internal
fault it sets the error flag and returns failure without throwing outward;
when media creation fails or the engine returns failure from the play
request, it returns failure without touching the error flag. -/
theorem c3_play :
    ∀ s mp url o, s.mediaPlayer = some mp → s.initialized = true →
      ((o.fault = true →
         play s url o = (false, { s with isInErrorState := true })) ∧
       (o.fault = false → o.mediaOk = false → play s url o = (false, s)) ∧
       (o.fault = false → o.mediaOk = true → o.playOk = true →
         (play s url o).1 = true ∧
         (play s url o).2.currentUrl = url ∧
         (play s url o).2.freezeDetectionEnabled = true ∧
         (play s url o).2.lastFrameCount = 0 ∧
         (play s url o).2.lastFrameTime = o.now ∧
         (play s url o).2.isInErrorState = false) ∧
       (o.fault = false → o.mediaOk = true → o.playOk = false →
         (play s url o).1 = false ∧
         (play s url o).2.isInErrorState = s.isInErrorState)) := by
  intro s mp url o hmp hin
  refine ⟨?_, ?_, ?_, ?_⟩
  · intro hf
    simp [play, hmp, hin, hf]
  · intro hf hm
    simp [play, hmp, hin, hf, hm]
  · intro hf hm hp
    simp [play, hmp, hin, hf, hm, hp]
  · intro hf hm hp
    simp [play, hmp, hin, hf, hm, hp]

/-- C3 witness: the amended theorem evaluated on a concrete successful play
and on a concrete internal fault. -/
theorem c3_play_witness :
    (play c3State "udp://239.0.0.1:1234"
       { mediaOk := true, playOk := true, fault := false, now := 3 }).2.currentUrl
      = "udp://239.0.0.1:1234" ∧
    (play c3State "u"
       { mediaOk := true, playOk := true, fault := true, now := 3 }).2.isInErrorState
      = true :=
  ⟨((c3_play c3State { attachedHwnd := 7, hasMedia := false, volume := 100 }
       "udp://239.0.0.1:1234"
       { mediaOk := true, playOk := true, fault := false, now := 3 }
       rfl rfl).2.2.1 rfl rfl rfl).2.1,
   by
     rw [(c3_play c3State { attachedHwnd := 7, hasMedia := false, volume := 100 }
       "u" { mediaOk := true, playOk := true, fault := true, now := 3 }
       rfl rfl).1 rfl]⟩

/-! ### Claim C4: `recreateMediaPlayer` -/

/-- C4: `recreateMediaPlayer` fails (state unchanged) when no engine
instance exists, in particular on a fresh session before any
initialization.  With a live engine instance: on success it installs a
fresh player (releasing any old one), reattaches the stored window handle,
clears the error flag and returns success; on a player-creation failure it
returns failure with the engine instance preserved for a later retry. -/
theorem c4_recreateMediaPlayer :
    (∀ ok, recreateMediaPlayer initState ok = (false, initState)) ∧
    (∀ s ok, s.vlcInstance = false → recreateMediaPlayer s ok = (false, s)) ∧
    (∀ s, s.vlcInstance = true →
      (recreateMediaPlayer s true).1 = true ∧
      (recreateMediaPlayer s true).2.mediaPlayer
        = some { attachedHwnd := s.hwnd, hasMedia := false, volume := 100 } ∧
      (recreateMediaPlayer s true).2.isInErrorState = false ∧
      (recreateMediaPlayer s true).2.vlcInstance = true ∧
      (recreateMediaPlayer s false).1 = false ∧
      (recreateMediaPlayer s false).2.vlcInstance = true) := by
  refine ⟨fun ok => ?_, fun s ok hv => ?_, fun s hv => ?_⟩
  · cases ok <;> rfl
  · simp [recreateMediaPlayer, hv]
  · simp [recreateMediaPlayer, hv]

/-- C4 witness: the theorem evaluated on a concrete engine-intact session
(the one reached by a successful initialization with window handle 42)
and on the fresh pre-initialization state. -/
theorem c4_recreateMediaPlayer_witness :
    recreateMediaPlayer initState true = (false, initState) ∧
    (recreateMediaPlayer (run [Op.initOp 42 true true]) true).2.mediaPlayer
      = some { attachedHwnd := 42, hasMedia := false, volume := 100 } :=
  ⟨c4_recreateMediaPlayer.1 true,
   (c4_recreateMediaPlayer.2.2 (run [Op.initOp 42 true true]) rfl).2.1⟩

/-! ### Claim C5: Session handle invariant -/

/-- C5 counterexample: after a successful initialization followed by a
recreate whose player creation fails, the session is still marked
initialized but the player handle is null (the source never resets
`initialized` on that path, lines 67-70), so the claimed
"player non-null iff initialized" invariant is violated in a reachable
state. -/
theorem c5_counterexample :
    (run [Op.initOp 42 true true, Op.recreateOp false]).initialized = true ∧
    (run [Op.initOp 42 true true, Op.recreateOp false]).mediaPlayer = none :=
  ⟨rfl, rfl⟩

/-- C5 (amended): in every state reachable by any sequence of public
operations, a non-null player handle implies `initialized` is true, and the
engine-instance handle exists whenever a player handle exists or the
session is initialized; the converse — `initialized` implies a non-null
player handle — fails after a recreate whose player creation fails. -/
theorem c5_session_invariant (ops : List Op) :
    ((run ops).mediaPlayer.isSome = true →
      (run ops).initialized = true ∧ (run ops).vlcInstance = true) ∧
    ((run ops).initialized = true → (run ops).vlcInstance = true) := by
  obtain ⟨h1, h2, h3⟩ := sessionInv_run ops
  exact ⟨fun hm => ⟨h1 hm, by rw [h2]; exact h1 hm⟩,
         fun hi => by rw [h2]; exact hi⟩

/-- C5 witness: the amended invariant evaluated on the concrete state
reached by one successful initialization. -/
theorem c5_session_invariant_witness :
    (run [Op.initOp 42 true true]).initialized = true ∧
    (run [Op.initOp 42 true true]).vlcInstance = true :=
  (c5_session_invariant [Op.initOp 42 true true]).1 rfl

/-! ### Claim C6: RecordingSession invariant -/

/-- An operation sequence that starts a recording with an empty destination
path in a session with a loaded source. -/
def c6Ops : List Op :=
  [Op.initOp 42 true true,
   Op.playOp "udp://239.0.0.1:1234"
     { mediaOk := true, playOk := true, fault := false, now := 0 },
   Op.startRecOp ""]

/-- C6 counterexample: `startRecording("")` succeeds in a session with a
loaded source (the source never checks the path for emptiness, lines
374-407), reaching a state with the active flag set and an empty stored
destination path, violating the claimed "non-empty iff active"
invariant. -/
theorem c6_counterexample :
    (startRecording (run [Op.initOp 42 true true,
      Op.playOp "udp://239.0.0.1:1234"
        { mediaOk := true, playOk := true, fault := false, now := 0 }]) "").1
      = true ∧
    (run c6Ops).isRecording = true ∧
    (run c6Ops).recordingPath = "" :=
  ⟨rfl, rfl, rfl⟩

/-- C6 (amended): in every state reachable by any sequence of public
operations (in particular any sequence of `startRecording` and
`stopRecording` calls), the stored destination path is empty whenever the
active flag is false; the converse direction of the claimed equivalence
fails because `startRecording` accepts an empty path string. -/
theorem c6_recording_invariant (ops : List Op) :
    (run ops).isRecording = false → (run ops).recordingPath = "" :=
  (sessionInv_run ops).2.2

/-- C6 witness: the amended invariant evaluated on the state reached by
starting and then stopping a recording. -/
theorem c6_recording_invariant_witness :
    (run (c6Ops ++ [Op.stopRecOp])).recordingPath = "" :=
  c6_recording_invariant (c6Ops ++ [Op.stopRecOp]) rfl

/-! ### Claim C7: `startRecording` preconditions and effect -/

/-- C7: `startRecording(path)` fails without state change when the session
is not initialized, when the player handle is null, when a recording is
already active, or when no media is set; in a live session with a loaded
source and no active recording it succeeds, after which `getIsRecording`
is true and `getRecordingPath` returns `path`, and a second
`startRecording` before `stopRecording` fails. -/
theorem c7_startRecording :
    (∀ s path, s.mediaPlayer = none → startRecording s path = (false, s)) ∧
    (∀ s path, s.initialized = false → startRecording s path = (false, s)) ∧
    ∀ s mp path, s.mediaPlayer = some mp → s.initialized = true →
      ((s.isRecording = true → startRecording s path = (false, s)) ∧
       (s.isRecording = false → mp.hasMedia = false →
         startRecording s path = (false, s)) ∧
       (s.isRecording = false → mp.hasMedia = true →
         (startRecording s path).1 = true ∧
         getIsRecording (startRecording s path).2 = true ∧
         getRecordingPath (startRecording s path).2 = path ∧
         ∀ q, (startRecording (startRecording s path).2 q).1 = false)) := by
  refine ⟨fun s path hmp => by simp [startRecording, hmp], ?_, ?_⟩
  · intro s path hin
    cases hmp : s.mediaPlayer with
    | none => simp [startRecording, hmp]
    | some mp => simp [startRecording, hmp, hin]
  · intro s mp path hmp hin
    refine ⟨?_, ?_, ?_⟩
    · intro hr
      simp [startRecording, hmp, hin, hr]
    · intro hr hm
      simp [startRecording, hmp, hin, hr, hm]
    · intro hr hm
      refine ⟨?_, ?_, ?_, ?_⟩ <;>
        simp [startRecording, hmp, hin, hr, hm, getIsRecording,
          getRecordingPath]

/-- C7 witness: the scenario from the specification on concrete states —
with no source loaded `startRecording` fails; with a source loaded it
succeeds, reports recording and returns the path; a second call fails. -/
theorem c7_startRecording_witness :
    startRecording c3State "/tmp/out.ts" = (false, c3State) ∧
    (startRecording (run (List.take 2 c6Ops)) "/tmp/out.ts").1 = true ∧
    getRecordingPath (startRecording (run (List.take 2 c6Ops)) "/tmp/out.ts").2
      = "/tmp/out.ts" ∧
    (startRecording (startRecording (run (List.take 2 c6Ops)) "/tmp/out.ts").2
      "/tmp/b.ts").1 = false :=
  ⟨(c7_startRecording.2.2 c3State
      { attachedHwnd := 7, hasMedia := false, volume := 100 }
      "/tmp/out.ts" rfl rfl).2.1 rfl rfl,
   ((c7_startRecording.2.2 (run (List.take 2 c6Ops))
      { attachedHwnd := 42, hasMedia := true, volume := 100 }
      "/tmp/out.ts" rfl rfl).2.2 rfl rfl).1,
   ((c7_startRecording.2.2 (run (List.take 2 c6Ops))
      { attachedHwnd := 42, hasMedia := true, volume := 100 }
      "/tmp/out.ts" rfl rfl).2.2 rfl rfl).2.2.1,
   ((c7_startRecording.2.2 (run (List.take 2 c6Ops))
      { attachedHwnd := 42, hasMedia := true, volume := 100 }
      "/tmp/out.ts" rfl rfl).2.2 rfl rfl).2.2.2 "/tmp/b.ts"⟩

/-! ### Claim C8: `stop` -/

/-- An operation sequence reaching an initialized session whose player
handle is null: a successful initialization and play, then a recreate
whose player creation fails (which releases the old player but never
resets `initialized`). -/
def noPlayerOps : List Op :=
  [Op.initOp 42 true true,
   Op.playOp "udp://239.0.0.1:1234"
     { mediaOk := true, playOk := true, fault := false, now := 0 },
   Op.recreateOp false]

/-- C8 counterexample: in the reachable initialized session with a null
player handle (`run noPlayerOps`), `stop()` hits the guard at
vlc_player.cpp line 164 and returns failure with the state unchanged —
monitoring stays enabled and `getCurrentUrl` stays nonempty — falsifying
"for every initialized session, stop() ... returns success". -/
theorem c8_counterexample :
    (run noPlayerOps).initialized = true ∧
    (stop (run noPlayerOps)).1 = false ∧
    (stop (run noPlayerOps)).2 = run noPlayerOps ∧
    (stop (run noPlayerOps)).2.freezeDetectionEnabled = true ∧
    getCurrentUrl (stop (run noPlayerOps)).2 = "udp://239.0.0.1:1234" :=
  ⟨rfl, rfl, rfl, rfl, rfl⟩

/-- C8 (amended): for every initialized session with a live (non-null)
player handle, `stop()` succeeds, disables freeze detection, clears the
current URL and the error flag; consequently `getCurrentUrl` returns the
empty string on the resulting state and `isStreamFrozen` returns false
there for every engine answer and threshold.  (In an initialized session
whose player handle is null — reachable through a failed recreate —
`stop()` returns failure and changes nothing.) -/
theorem c8_stop (s : PlayerState) (mp : MediaPlayerHandle)
    (hmp : s.mediaPlayer = some mp) (hin : s.initialized = true) :
    (stop s).1 = true ∧
    (stop s).2.freezeDetectionEnabled = false ∧
    getCurrentUrl (stop s).2 = "" ∧
    (stop s).2.isInErrorState = false ∧
    ∀ o t, isStreamFrozen (stop s).2 o t = false := by
  refine ⟨?_, ?_, ?_, ?_, ?_⟩ <;>
    simp [stop, hmp, hin, getCurrentUrl]
  intro o t
  simp [isStreamFrozen, hmp]

/-- C8 witness: `stop` evaluated on a session that is playing a stream. -/
theorem c8_stop_witness :
    getCurrentUrl (stop (run (List.take 2 c6Ops))).2 = "" ∧
    isStreamFrozen (stop (run (List.take 2 c6Ops))).2
      (FrozenOracle.mk VlcState.Playing 1000 false) 10 = false :=
  ⟨(c8_stop (run (List.take 2 c6Ops))
      { attachedHwnd := 42, hasMedia := true, volume := 100 } rfl rfl).2.2.1,
   (c8_stop (run (List.take 2 c6Ops))
      { attachedHwnd := 42, hasMedia := true, volume := 100 } rfl rfl).2.2.2.2
      (FrozenOracle.mk VlcState.Playing 1000 false) 10⟩

/-! ### Claim C9: volume clamping -/

/-- C9 counterexample: in the reachable initialized session with a null
player handle (`run noPlayerOps`), `setVolume(50)` hits the guard at
vlc_player.cpp line 206 and returns failure with the state unchanged, and
the subsequent `getVolume()` returns 0, not `clamp(50,0,100) = 50` —
falsifying "for every ... initialized session, setVolume(v) ... succeeds".
-/
theorem c9_counterexample :
    (run noPlayerOps).initialized = true ∧
    (setVolume (run noPlayerOps) 50).1 = false ∧
    (setVolume (run noPlayerOps) 50).2 = run noPlayerOps ∧
    getVolume (setVolume (run noPlayerOps) 50).2 = 0 ∧
    clampVolume 50 = 50 :=
  ⟨rfl, rfl, rfl, rfl, rfl⟩

/-- C9 (amended): for every integer volume and every initialized session
with a live (non-null) player handle, `setVolume` succeeds and forwards
exactly the clamped value to the engine, so a subsequent `getVolume`
returns `clamp(v,0,100)`; the clamping expression agrees with the
mathematical clamp.  (In an initialized session whose player handle is
null — reachable through a failed recreate — `setVolume` returns failure
and `getVolume` returns 0.) -/
theorem c9_setVolume (s : PlayerState) (mp : MediaPlayerHandle) (v : Int)
    (hmp : s.mediaPlayer = some mp) (hin : s.initialized = true) :
    (setVolume s v).1 = true ∧
    (setVolume s v).2.mediaPlayer = some { mp with volume := clampVolume v } ∧
    getVolume (setVolume s v).2 = clampVolume v ∧
    clampVolume v = max 0 (min v 100) := by
  refine ⟨?_, ?_, ?_, ?_⟩
  · simp [setVolume, hmp, hin]
  · simp [setVolume, hmp, hin]
  · simp [setVolume, getVolume, hmp, hin]
  · unfold clampVolume
    split <;> [skip; split] <;> omega

/-- C9 witness: out-of-range volumes on a concrete live session are
clamped, never rejected. -/
theorem c9_setVolume_witness :
    (setVolume c3State 150).1 = true ∧
    getVolume (setVolume c3State 150).2 = 100 ∧
    getVolume (setVolume c3State (-3)).2 = 0 :=
  ⟨(c9_setVolume c3State { attachedHwnd := 7, hasMedia := false, volume := 100 }
      150 rfl rfl).1,
   (c9_setVolume c3State { attachedHwnd := 7, hasMedia := false, volume := 100 }
      150 rfl rfl).2.2.1,
   (c9_setVolume c3State { attachedHwnd := 7, hasMedia := false, volume := 100 }
      (-3) rfl rfl).2.2.1⟩

/-! ### Claim C10: `resume` cannot report failure -/

/-- C10: for a live session, `resume` returns success and leaves the state
unchanged for every engine answer — including when the engine is not
playing and the forwarded play request would fail — so a caller cannot
observe a resume failure from the return value. -/
theorem c10_resume (s : PlayerState) (mp : MediaPlayerHandle)
    (hmp : s.mediaPlayer = some mp) (hin : s.initialized = true) :
    ∀ isPlayingNow playOk, resume s isPlayingNow playOk = (true, s) := by
  intro ipn pok
  simp [resume, hmp, hin]

/-- C10 witness: `resume` on a concrete initialized session where the
engine reports not playing and the forwarded play request fails still
returns success. -/
theorem c10_resume_witness :
    resume c3State false false = (true, c3State) :=
  c10_resume c3State { attachedHwnd := 7, hasMedia := false, volume := 100 }
    rfl rfl false false
